import Mathlib

/-!
# RCOM-FEUP: serial link handshake

A shallow embedding of the C sources of the repository:

* `Project 1/src/link_layer.c`         (namespace `LinkLayer`)
* `TP2/read_noncanonical.c`            (namespace `TP2Read`)
* `TP2/write_noncanonical.c`           (namespace `TP2Write`)
* `Project 1/TP3/read_noncanonical.c`  (namespace `TP3Read`)
* `Project 1/TP3/write_noncanonical.c` (namespace `TP3Write`)

Bytes (`unsigned char`) are natural numbers; every comparison of the sources
is a comparison of such values.  The serial port is a parameter: the list (or
stream) of results that successive `read` calls return, and the list of
frames passed to `write` is part of the result.
-/

namespace LinkLayer

/-! ## `Project 1/src/link_layer.c` -/

def FLAG : Nat := 0x7E
def A : Nat := 0x03
def C_SET : Nat := 0x03
def C_UA : Nat := 0x07
def BCC_SET : Nat := A ^^^ C_SET
def BCC_UA : Nat := A ^^^ C_UA

def TIMEOUT : Nat := 3
def MAX_RETRIES : Nat := 3

/-- Results of the system calls that `llopen` makes before the handshake:
the descriptor returned by `open` and the return values of `tcgetattr` and
`tcsetattr`. -/
structure Port where
  fd : Int
  tcgetattr : Int
  tcsetattr : Int
deriving DecidableEq, Repr

/-- What one call `read(fd, response, 5)` does: it fails (`-1`, also when the
alarm interrupts it) or delivers some bytes, of which at most 5 are taken. -/
inductive ReadResult where
  | error
  | bytes (data : List Nat)
deriving DecidableEq, Repr

/-- The value `res` returned by `read(fd, response, 5)`. -/
def ReadResult.res : ReadResult → Int
  | .error => -1
  | .bytes data => ((data.take 5).length : Int)

/-- The buffer `response` after `read(fd, response, 5)`: the delivered bytes
overwrite its beginning, the rest keeps its old content. -/
def ReadResult.store (response : List Nat) : ReadResult → List Nat
  | .error => response
  | .bytes data => data.take 5 ++ response.drop (data.take 5).length

/-- The array `set_frame` of `llopen`. -/
def set_frame : List Nat := [FLAG, A, C_SET, BCC_SET, FLAG]

/-- The condition of the `if` after the read in `llopen`. -/
def uaCheck (res : Int) (response : List Nat) : Bool :=
  res == 5 && response.getD 0 0 == FLAG && response.getD 1 0 == A &&
    response.getD 2 0 == C_UA && response.getD 3 0 == BCC_UA &&
    response.getD 4 0 == FLAG

/-- What `llopen` returns, with the frames it passed to `write`, in order. -/
structure Outcome where
  ret : Int
  written : List (List Nat)
deriving DecidableEq, Repr

/-- The local state of the retry loop of `llopen`, with the frames written
so far. -/
structure LoopState where
  retries : Nat
  response : List Nat
  written : List (List Nat)
deriving DecidableEq, Repr

/-- How one pass through the body of the `while` loop ends: `return fd`, or
the end of the body with the updated state. -/
inductive BodyResult where
  | returned (out : Outcome)
  | next (s : LoopState)
deriving DecidableEq, Repr

/-- One pass through the body of `while (retries < MAX_RETRIES)`: write the
SET frame, read up to 5 bytes into `response`, return `fd` when the check
succeeds, otherwise `retries++`. -/
def llopenBody (fd : Int) (s : LoopState) (r : ReadResult) : BodyResult :=
  let written := s.written ++ [set_frame.take 5]
  let res := r.res
  let response := r.store s.response
  if uaCheck res response then
    .returned ⟨fd, written⟩
  else
    .next ⟨s.retries + 1, response, written⟩

/-- The loop `while (retries < MAX_RETRIES)` of `llopen`, followed by the
final `return -1`.  `reads k` is the result of the read call made while
`retries = k`. -/
def llopenLoop (fd : Int) (reads : Nat → ReadResult) (s : LoopState) : Outcome :=
  if s.retries < MAX_RETRIES then
    match hb : llopenBody fd s (reads s.retries) with
    | .returned out => out
    | .next s1 => llopenLoop fd reads s1
  else
    ⟨-1, s.written⟩
termination_by MAX_RETRIES - s.retries
decreasing_by
  have hr : s1.retries = s.retries + 1 := by
    simp only [llopenBody] at hb
    split at hb
    · cases hb
    · cases hb; rfl
  omega

/-- The function `llopen`: `port` holds the results of `open`, `tcgetattr` and
`tcsetattr`, `reads` the results of the successive read calls and `response0`
the initial content of the local array `response`. -/
def llopen (port : Port) (reads : Nat → ReadResult) (response0 : List Nat) : Outcome :=
  if port.fd < 0 then ⟨-1, []⟩
  else if port.tcgetattr = -1 then ⟨-1, []⟩
  else if port.tcsetattr = -1 then ⟨-1, []⟩
  else llopenLoop port.fd reads ⟨0, response0, []⟩

end LinkLayer

namespace TP2Read

/-! ## `TP2/read_noncanonical.c` -/

def FALSE : Int := 0
def TRUE : Int := 1

def FLAG : Nat := 0x7E
def ADRESS_SENDER : Nat := 0x03
def ADRESS_RECEIVER : Nat := 0x01
def SET : Nat := 0x03
def UA : Nat := 0x07

def BUF_SIZE : Nat := 5

/-- The enumeration `State`. -/
inductive State where
  | START
  | FLAG_RCV
  | A_RCV
  | C_RCV
  | BCC_OK
  | STOP_
deriving DecidableEq, Repr

/-- The integer value of an enumerator of `State`. -/
def State.val : State → Int
  | .START => 0
  | .FLAG_RCV => 1
  | .A_RCV => 2
  | .C_RCV => 3
  | .BCC_OK => 4
  | .STOP_ => 5

/-- The global `volatile int STOP = FALSE`, never assigned. -/
def STOP : Int := FALSE

/-- The `switch (state)` of the receive loop as a transition function of the
current state and the content of `byte`. -/
def switchState (state : State) (byte : Nat) : State :=
  match state with
  | .START =>
      if byte = FLAG then .FLAG_RCV else .START
  | .FLAG_RCV =>
      if byte = ADRESS_SENDER then .A_RCV
      else if byte ≠ FLAG then .START
      else .FLAG_RCV
  | .A_RCV =>
      if byte = SET then .C_RCV
      else if byte = FLAG then .FLAG_RCV
      else .START
  | .C_RCV =>
      if byte = (SET ^^^ ADRESS_SENDER) then .BCC_OK
      else if byte = FLAG then .FLAG_RCV
      else .START
  | .BCC_OK =>
      if byte = FLAG then .STOP_ else .START
  | .STOP_ => .START

/-- The transition function run over a list of bytes. -/
def run (state : State) (bytes : List Nat) : State :=
  bytes.foldl switchState state

/-- The transition function run over a list of bytes, stopping at the first
entry into `STOP_`: once there, the remaining bytes are not consumed. -/
def runUntilStop : State → List Nat → State
  | .STOP_, _ => .STOP_
  | s, [] => s
  | s, b :: rest => runUntilStop (switchState s b) rest

/-- The states entered while the bytes are consumed one by one, in order. -/
def trace : State → List Nat → List State
  | _, [] => []
  | s, b :: rest => switchState s b :: trace (switchState s b) rest

/-- What one call `read(fd, &byte, 1)` does: it fails, returns 0 because the
per-read timeout (VMIN = 0, VTIME = 1) elapsed, or delivers one byte. -/
inductive ReadByte where
  | error
  | nothing
  | got (b : Nat)
deriving DecidableEq, Repr

/-- The value `res` returned by `read(fd, &byte, 1)`. -/
def ReadByte.res : ReadByte → Int
  | .error => -1
  | .nothing => 0
  | .got _ => 1

/-- The global `byte` after `read(fd, &byte, 1)`. -/
def ReadByte.store (byte : Nat) : ReadByte → Nat
  | .error => byte
  | .nothing => byte
  | .got b => b

/-- The bytes taken from the channel by one read call. -/
def ReadByte.taken : ReadByte → List Nat
  | .error => []
  | .nothing => []
  | .got b => [b]

/-- The globals `state` and `byte`. -/
structure Globals where
  state : State
  byte : Nat
deriving DecidableEq, Repr

/-- The initial values of the globals: `State state = START` and a zero
`byte`. -/
def initGlobals : Globals := ⟨.START, 0⟩

/-- How the receive loop was left. `finished` is false when the supplied read
results ran out while the loop was still running; `consumed` holds the bytes
taken from the channel and `calls` counts the read calls. -/
structure LoopEnd where
  g : Globals
  calls : Nat
  consumed : List Nat
  finished : Bool
deriving DecidableEq, Repr

/-- The loop `while (state != STOP)` of `main`: read one byte, `break` on a
read error, otherwise run the `switch`. -/
def receiveLoop : Globals → List ReadByte → Nat → List Nat → LoopEnd
  | g, reads, calls, consumed =>
    if g.state.val ≠ STOP then
      match reads with
      | [] => ⟨g, calls, consumed, false⟩
      | r :: rest =>
        let byte := r.store g.byte
        if r.res < 0 then
          ⟨⟨g.state, byte⟩, calls + 1, consumed, true⟩
        else
          receiveLoop ⟨switchState g.state byte, byte⟩ rest (calls + 1)
            (consumed ++ r.taken)
    else
      ⟨g, calls, consumed, true⟩

/-- The array `buf_answer` that `main` fills after the loop. -/
def buf_answer : List Nat :=
  ((((List.replicate BUF_SIZE 0).set 0 FLAG).set 1 ADRESS_RECEIVER).set 2 UA).set 3
    (ADRESS_RECEIVER ^^^ UA) |>.set 4 FLAG

/-- What `main` did on the channel: the bytes it consumed, the number of read
calls, and the frames it wrote. -/
structure MainResult where
  consumed : List Nat
  calls : Nat
  written : List (List Nat)
deriving DecidableEq, Repr

/-- The function `main` from the receive loop on (the port is open and
configured): the loop, then `write(fd, buf_answer, BUF_SIZE)`.  The result is
`none` while the loop is still running at the end of the supplied reads. -/
def main (reads : List ReadByte) : Option MainResult :=
  let e := receiveLoop initGlobals reads 0 []
  if e.finished then
    some ⟨e.consumed, e.calls, [buf_answer.take BUF_SIZE]⟩
  else
    none

/-- One pass through the body of the receive loop: `read(fd, &byte, 1)`, then
`break` (`none`) when `res < 0`, otherwise the `switch` on the content of
`byte`, whatever the value of `res`. -/
def loopIteration (g : Globals) (r : ReadByte) : Option Globals :=
  let byte := r.store g.byte
  if r.res < 0 then
    none
  else
    some ⟨switchState g.state byte, byte⟩

end TP2Read

namespace Write

/-! ## The retransmission logic of the two writers

`TP2/write_noncanonical.c` and `Project 1/TP3/write_noncanonical.c` have the
same globals, the same alarm handler and the same main loop; they differ in
the frame put in `buf`, in the array `expected` and in the number of bytes
written (5 and 10). These three are parameters here. -/

def BUF_SIZE : Nat := 256
def MAX_RETRANSMISSIONS : Nat := 3
def TIMEOUT : Nat := 3

/-- The volatile globals of a writer, and whether an alarm is pending
(requested by `alarm(TIMEOUT)` and not yet delivered or cancelled). -/
structure Globals where
  alarmEnabled : Bool
  alarmCount : Nat
  retransmissions : Nat
  pending : Bool
deriving DecidableEq, Repr

/-- The initial values of the globals. -/
def initGlobals : Globals := ⟨false, 0, 0, false⟩

/-- The function `alarmHandler`. -/
def alarmHandler (g : Globals) : Globals :=
  let g1 : Globals := ⟨false, g.alarmCount + 1, g.retransmissions, g.pending⟩
  if g1.retransmissions < MAX_RETRANSMISSIONS then
    ⟨true, g1.alarmCount, g1.retransmissions + 1, true⟩
  else
    g1

/-- Delivery of SIGALRM: nothing without a pending alarm, otherwise the alarm
is consumed and the handler runs. -/
def deliver (g : Globals) : Globals :=
  if g.pending then
    alarmHandler ⟨g.alarmEnabled, g.alarmCount, g.retransmissions, false⟩
  else
    g

/-- What one call `read(fd, buf, 5)` does. -/
inductive ReadResult where
  | error
  | bytes (data : List Nat)
deriving DecidableEq, Repr

/-- The value `bytes` returned by `read(fd, buf, 5)`. -/
def ReadResult.res : ReadResult → Int
  | .error => -1
  | .bytes data => ((data.take 5).length : Int)

/-- The array `buf` after `read(fd, buf, 5)`: the delivered bytes overwrite
its beginning. -/
def ReadResult.store (buf : List Nat) : ReadResult → List Nat
  | .error => buf
  | .bytes data => data.take 5 ++ buf.drop (data.take 5).length

/-- One pass of the main loop as seen from the channel: the number of alarm
expirations delivered while the process is blocked in the read, and what the
read then returns. -/
structure Event where
  alarms : Nat
  read : ReadResult
deriving DecidableEq, Repr

/-- The state of `main`: the globals, the array `buf` and the frames written
so far. -/
structure MainState where
  g : Globals
  buf : List Nat
  written : List (List Nat)
deriving DecidableEq, Repr

/-- The body of `while (retransmissions < MAX_RETRANSMISSIONS)`, with the flag
telling whether it ended in a `break`.  `len` is the number of bytes passed to
`write`. -/
def loopBody (expected : List Nat) (len : Nat) (s : MainState) (ev : Event) :
    Bool × MainState :=
  let g := deliver^[ev.alarms] s.g
  let bytes := ev.read.res
  let buf := ev.read.store s.buf
  if bytes = 5 ∧ buf.take 5 = expected then
    (true, ⟨⟨g.alarmEnabled, g.alarmCount, g.retransmissions, false⟩, buf, s.written⟩)
  else
    let s1 : MainState :=
      if g.alarmEnabled = false then
        ⟨⟨true, g.alarmCount, g.retransmissions, true⟩, buf, s.written ++ [buf.take len]⟩
      else
        ⟨g, buf, s.written⟩
    if s1.g.alarmCount ≥ MAX_RETRANSMISSIONS then (true, s1) else (false, s1)

/-- The main loop over the supplied events; `none` while the loop is still
running when they run out. -/
def mainLoop (expected : List Nat) (len : Nat) : MainState → List Event → Option MainState
  | s, events =>
    if s.g.retransmissions < MAX_RETRANSMISSIONS then
      match events with
      | [] => none
      | ev :: rest =>
        match loopBody expected len s ev with
        | (true, s1) => some s1
        | (false, s1) => mainLoop expected len s1 rest
    else
      some s

/-- The function `main` of a writer from the first `write` on: send the frame
in `buf`, request the alarm, run the loop.  The result is the list of frames
written. -/
def main (buf : List Nat) (expected : List Nat) (len : Nat) (events : List Event) :
    Option (List (List Nat)) :=
  let s0 : MainState :=
    ⟨⟨true, initGlobals.alarmCount, initGlobals.retransmissions, true⟩, buf, [buf.take len]⟩
  (mainLoop expected len s0 events).map MainState.written

end Write

namespace TP2Write

/-! ## `TP2/write_noncanonical.c` -/

def FLAG : Nat := 0x7E
def ADRESS_SENDER : Nat := 0x03
def ADRESS_RECEIVER : Nat := 0x01
def SET : Nat := 0x03
def UA : Nat := 0x07

/-- The array `buf` after the SET frame has been put in it. -/
def buf : List Nat :=
  ((((List.replicate Write.BUF_SIZE 0).set 0 FLAG).set 1 ADRESS_SENDER).set 2 SET).set 3
    (ADRESS_SENDER ^^^ SET) |>.set 4 FLAG

/-- The array `expected`. -/
def expected : List Nat := [FLAG, ADRESS_RECEIVER, UA, ADRESS_RECEIVER ^^^ UA, FLAG]

/-- The 5 bytes of the first `write(fd, buf, 5)`. -/
def sentFrame : List Nat := buf.take 5

/-- The body of the main loop. -/
def loopBody (s : Write.MainState) (ev : Write.Event) : Bool × Write.MainState :=
  Write.loopBody expected 5 s ev

/-- The function `main` from the first `write` on. -/
def main (events : List Write.Event) : Option (List (List Nat)) :=
  Write.main buf expected 5 events

end TP2Write

namespace TP3Write

/-! ## `Project 1/TP3/write_noncanonical.c` -/

def FLAG : Nat := 0x7E
def ADRESS_SENDER : Nat := 0x03
def ADRESS_RECEIVER : Nat := 0x01
def C_NS0 : Nat := 0x00
def C_NS1 : Nat := 0x40

/-- The array `buf` after the information frame has been put in it; the
assignment to `buf[3]` reads `buf[1]` and `buf[2]`. -/
def buf : List Nat :=
  let b0 := List.replicate Write.BUF_SIZE 0
  let b1 := ((b0.set 0 FLAG).set 1 ADRESS_SENDER).set 2 C_NS0
  let b2 := b1.set 3 (b1.getD 1 0 ^^^ b1.getD 2 0)
  (((((b2.set 4 72).set 5 101).set 6 108).set 7 108).set 8 111).set 9 FLAG

/-- The array `expected`. -/
def expected : List Nat := [FLAG, ADRESS_RECEIVER, C_NS1, ADRESS_RECEIVER ^^^ C_NS1, FLAG]

/-- The 10 bytes of the first `write(fd, buf, 10)`. -/
def sentFrame : List Nat := buf.take 10

/-- The body of the main loop. -/
def loopBody (s : Write.MainState) (ev : Write.Event) : Bool × Write.MainState :=
  Write.loopBody expected 10 s ev

/-- The function `main` from the first `write` on. -/
def main (events : List Write.Event) : Option (List (List Nat)) :=
  Write.main buf expected 10 events

end TP3Write

namespace TP3Read

/-! ## `Project 1/TP3/read_noncanonical.c` -/

def FALSE : Int := 0
def TRUE : Int := 1

def FLAG : Nat := 0x7E
def ADRESS_SENDER : Nat := 0x03
def ADRESS_RECEIVER : Nat := 0x01
def SET : Nat := 0x03
def UA : Nat := 0x07
def I_FRAME : Nat := 0x08

def BUF_SIZE : Nat := 256

/-- The enumeration `State`. -/
inductive State where
  | START
  | FLAG_RCV
  | A_RCV
  | C_RCV
  | DATA_RCV
  | BCC_OK
  | STOP_
deriving DecidableEq, Repr

/-- The integer value of an enumerator of `State`. -/
def State.val : State → Int
  | .START => 0
  | .FLAG_RCV => 1
  | .A_RCV => 2
  | .C_RCV => 3
  | .DATA_RCV => 4
  | .BCC_OK => 5
  | .STOP_ => 6

/-- The global `volatile int STOP = FALSE`, never assigned. -/
def STOP : Int := FALSE

/-- The function `calculate_bcc`: the XOR of the first `length` bytes of
`data`. -/
def calculate_bcc (data : List Nat) (length : Nat) : Nat :=
  (data.take length).foldl (fun bcc d => bcc ^^^ d) 0

/-- The globals `state`, `byte`, `frame` and `frame_index`. -/
structure Globals where
  state : State
  byte : Nat
  frame : List Nat
  frame_index : Nat
deriving DecidableEq, Repr

/-- The initial values of the globals. -/
def initGlobals : Globals := ⟨.START, 0, List.replicate BUF_SIZE 0, 0⟩

/-- The statement `frame[frame_index++] = byte`; `none` when the index is
outside the array. -/
def storeByte (g : Globals) : Option Globals :=
  if g.frame_index < BUF_SIZE then
    some ⟨g.state, g.byte, g.frame.set g.frame_index g.byte, g.frame_index + 1⟩
  else
    none

/-- The same globals in another state. -/
def Globals.goto (g : Globals) (state : State) : Globals :=
  ⟨state, g.byte, g.frame, g.frame_index⟩

/-- The `switch (state)` of the receive loop, run on the globals; `none` when
a store falls outside `frame`. -/
def switchState (g : Globals) : Option Globals :=
  match g.state with
  | .START =>
      if g.byte = FLAG then
        storeByte ⟨.FLAG_RCV, g.byte, g.frame, 0⟩
      else some g
  | .FLAG_RCV =>
      if g.byte = ADRESS_SENDER then
        storeByte (g.goto .A_RCV)
      else if g.byte ≠ FLAG then
        some (g.goto .START)
      else
        storeByte g
  | .A_RCV =>
      (storeByte g).map fun g1 =>
        if g1.byte = I_FRAME then g1.goto .C_RCV else g1.goto .START
  | .C_RCV =>
      (storeByte g).map fun g1 => g1.goto .DATA_RCV
  | .DATA_RCV =>
      (storeByte g).map fun g1 =>
        if g1.frame_index ≥ BUF_SIZE - 1 then g1.goto .BCC_OK else g1
  | .BCC_OK =>
      let bcc := calculate_bcc g.frame (g.frame_index - 1)
      if bcc = g.byte then some (g.goto .STOP_) else some (g.goto .START)
  | .STOP_ => some (g.goto .START)

/-- What one call `read(fd, &byte, 1)` does. -/
inductive ReadByte where
  | error
  | nothing
  | got (b : Nat)
deriving DecidableEq, Repr

/-- The value `res` returned by `read(fd, &byte, 1)`. -/
def ReadByte.res : ReadByte → Int
  | .error => -1
  | .nothing => 0
  | .got _ => 1

/-- The global `byte` after `read(fd, &byte, 1)`. -/
def ReadByte.store (byte : Nat) : ReadByte → Nat
  | .error => byte
  | .nothing => byte
  | .got b => b

/-- The bytes taken from the channel by one read call. -/
def ReadByte.taken : ReadByte → List Nat
  | .error => []
  | .nothing => []
  | .got b => [b]

/-- How the receive loop was left: `finished` is false when the supplied read
results ran out while the loop was still running, `overflow` is true when a
store fell outside `frame`. -/
structure LoopEnd where
  g : Globals
  calls : Nat
  consumed : List Nat
  finished : Bool
  overflow : Bool
deriving DecidableEq, Repr

/-- The loop `while (state != STOP)` of `main`. -/
def receiveLoop : Globals → List ReadByte → Nat → List Nat → LoopEnd
  | g, reads, calls, consumed =>
    if g.state.val ≠ STOP then
      match reads with
      | [] => ⟨g, calls, consumed, false, false⟩
      | r :: rest =>
        let g1 : Globals := ⟨g.state, r.store g.byte, g.frame, g.frame_index⟩
        if r.res < 0 then
          ⟨g1, calls + 1, consumed, true, false⟩
        else
          match switchState g1 with
          | none => ⟨g1, calls + 1, consumed ++ r.taken, false, true⟩
          | some g2 => receiveLoop g2 rest (calls + 1) (consumed ++ r.taken)
    else
      ⟨g, calls, consumed, true, false⟩

/-- The array `buf_answer` that `main` fills after the loop. -/
def buf_answer : List Nat :=
  ((((List.replicate 5 0).set 0 FLAG).set 1 ADRESS_RECEIVER).set 2 UA).set 3
    (ADRESS_RECEIVER ^^^ UA) |>.set 4 FLAG

/-- What `main` did on the channel. -/
structure MainResult where
  consumed : List Nat
  calls : Nat
  written : List (List Nat)
deriving DecidableEq, Repr

/-- The function `main` from the receive loop on: the loop, then
`write(fd, buf_answer, 5)`.  The result is `none` while the loop is still
running at the end of the supplied reads, or after a store outside `frame`. -/
def main (reads : List ReadByte) : Option MainResult :=
  let e := receiveLoop initGlobals reads 0 []
  if e.finished then
    some ⟨e.consumed, e.calls, [buf_answer.take 5]⟩
  else
    none

/-- The byte `b` put in the global `byte`, then the `switch`. -/
def step (g : Globals) (b : Nat) : Option Globals :=
  switchState ⟨g.state, b, g.frame, g.frame_index⟩

/-- The state machine run over a list of received bytes; `none` as soon as a
store falls outside `frame`. -/
def feed : Globals → List Nat → Option Globals
  | g, [] => some g
  | g, b :: rest =>
    match step g b with
    | none => none
    | some g1 => feed g1 rest

end TP3Read

/-! ## Theorems: `llopen` -/

namespace LinkLayer

theorem set_frame_bytes : set_frame = [0x7E, 0x03, 0x03, 0x00, 0x7E] := by decide

theorem set_frame_take : set_frame.take 5 = [0x7E, 0x03, 0x03, 0x00, 0x7E] := by decide

/-- A pass of the loop body whose read fails the check ends with `retries++`. -/
theorem llopenBody_reject (fd : Int) (s : LoopState) (r : ReadResult)
    (h : uaCheck r.res (r.store s.response) = false) :
    llopenBody fd s r =
      .next ⟨s.retries + 1, r.store s.response, s.written ++ [[0x7E, 0x03, 0x03, 0x00, 0x7E]]⟩ := by
  simp only [llopenBody, h, set_frame_take]
  rfl

/-- A pass of the loop body whose read passes the check returns `fd`. -/
theorem llopenBody_accept (fd : Int) (s : LoopState) (r : ReadResult)
    (h : uaCheck r.res (r.store s.response) = true) :
    llopenBody fd s r = .returned ⟨fd, s.written ++ [[0x7E, 0x03, 0x03, 0x00, 0x7E]]⟩ := by
  simp only [llopenBody, h, set_frame_take]
  rfl

theorem llopenLoop_reject (fd : Int) (reads : Nat → ReadResult) (n : Nat)
    (response : List Nat) (written : List (List Nat)) (hlt : n < MAX_RETRIES)
    (h : uaCheck (reads n).res ((reads n).store response) = false) :
    llopenLoop fd reads ⟨n, response, written⟩ =
      llopenLoop fd reads ⟨n + 1, (reads n).store response,
        written ++ [[0x7E, 0x03, 0x03, 0x00, 0x7E]]⟩ := by
  rw [llopenLoop, if_pos hlt]
  split
  · next out hb => rw [llopenBody_reject fd ⟨n, response, written⟩ (reads n) h] at hb; cases hb
  · next s1 hb => rw [llopenBody_reject fd ⟨n, response, written⟩ (reads n) h] at hb; cases hb; rfl

theorem llopenLoop_accept (fd : Int) (reads : Nat → ReadResult) (n : Nat)
    (response : List Nat) (written : List (List Nat)) (hlt : n < MAX_RETRIES)
    (h : uaCheck (reads n).res ((reads n).store response) = true) :
    llopenLoop fd reads ⟨n, response, written⟩ =
      ⟨fd, written ++ [[0x7E, 0x03, 0x03, 0x00, 0x7E]]⟩ := by
  rw [llopenLoop, if_pos hlt]
  split
  · next out hb => rw [llopenBody_accept fd ⟨n, response, written⟩ (reads n) h] at hb; cases hb; rfl
  · next s1 hb => rw [llopenBody_accept fd ⟨n, response, written⟩ (reads n) h] at hb; cases hb

theorem llopenLoop_exhausted (fd : Int) (reads : Nat → ReadResult) (n : Nat)
    (response : List Nat) (written : List (List Nat)) (hge : ¬ n < MAX_RETRIES) :
    llopenLoop fd reads ⟨n, response, written⟩ = ⟨-1, written⟩ := by
  rw [llopenLoop, if_neg hge]

/-- Three rejected reads in a row from `retries = 0`: the loop ends in the
final `return -1` with three SET frames written. -/
theorem llopenLoop_three_rejects (fd : Int) (reads : Nat → ReadResult) (response0 : List Nat)
    (h : ∀ k, k < MAX_RETRIES → ∀ response,
      uaCheck (reads k).res ((reads k).store response) = false) :
    llopenLoop fd reads ⟨0, response0, []⟩ =
      ⟨-1, [[0x7E, 0x03, 0x03, 0x00, 0x7E], [0x7E, 0x03, 0x03, 0x00, 0x7E],
        [0x7E, 0x03, 0x03, 0x00, 0x7E]]⟩ := by
  rw [llopenLoop_reject fd reads 0 _ _ (by decide) (h 0 (by decide) _)]
  rw [llopenLoop_reject fd reads 1 _ _ (by decide) (h 1 (by decide) _)]
  rw [llopenLoop_reject fd reads 2 _ _ (by decide) (h 2 (by decide) _)]
  rw [llopenLoop_exhausted fd reads 3 _ _ (by decide)]
  rfl

theorem llopen_configured (port : Port) (reads : Nat → ReadResult) (response0 : List Nat)
    (hfd : 0 ≤ port.fd) (hget : port.tcgetattr ≠ -1) (hset : port.tcsetattr ≠ -1) :
    llopen port reads response0 = llopenLoop port.fd reads ⟨0, response0, []⟩ := by
  simp only [llopen, if_neg (not_lt.mpr hfd), if_neg hget, if_neg hset]

/-- A read that delivers exactly five bytes puts these bytes in front of the
rest of `response`, so the check only looks at them. -/
theorem uaCheck_five (a b c d e : Nat) (response : List Nat) :
    uaCheck (ReadResult.bytes [a, b, c, d, e]).res
        ((ReadResult.bytes [a, b, c, d, e]).store response) =
      uaCheck 5 [a, b, c, d, e] := by
  simp [uaCheck, ReadResult.res, ReadResult.store]

/-- A read that delivers exactly five bytes is judged on these bytes alone. -/
theorem uaCheck_of_length_five (data response : List Nat) (hlen : data.length = 5) :
    uaCheck (ReadResult.bytes data).res ((ReadResult.bytes data).store response) =
      uaCheck 5 data := by
  match data, hlen with
  | [a, b, c, d, e], _ => exact uaCheck_five a b c d e response

theorem store_of_length_five (data response : List Nat) (hlen : data.length = 5) :
    (ReadResult.bytes data).store response = data ++ response.drop 5 := by
  match data, hlen with
  | [a, b, c, d, e], _ => rfl

/-- C1 (amended): on a channel none of whose read results passes the UA check
of `llopen`, an `llopen` whose port was opened and configured returns -1 after
writing the 5-byte SET frame exactly `MAX_RETRIES` (= 3) times in total: the
first transmission and `MAX_RETRIES - 1` retransmissions. -/
theorem llopen_never_accepted_fails (port : Port) (reads : Nat → ReadResult)
    (response0 : List Nat)
    (hfd : 0 ≤ port.fd) (hget : port.tcgetattr ≠ -1) (hset : port.tcsetattr ≠ -1)
    (hrej : ∀ k response, uaCheck (reads k).res ((reads k).store response) = false) :
    (llopen port reads response0).ret = -1 ∧
      (llopen port reads response0).written =
        List.replicate MAX_RETRIES [0x7E, 0x03, 0x03, 0x00, 0x7E] ∧
      (llopen port reads response0).written.length = MAX_RETRIES := by
  rw [llopen_configured port reads response0 hfd hget hset,
    llopenLoop_three_rejects port.fd reads response0 (fun k _ r => hrej k r)]
  exact ⟨rfl, rfl, rfl⟩

/-- Witness of C1: a channel whose every read delivers the four bytes
7E 01 07 06. -/
theorem llopen_never_accepted_fails_witness :
    (llopen ⟨3, 0, 0⟩ (fun _ => .bytes [0x7E, 0x01, 0x07, 0x06]) [0, 0, 0, 0, 0]).ret = -1 ∧
      (llopen ⟨3, 0, 0⟩ (fun _ => .bytes [0x7E, 0x01, 0x07, 0x06]) [0, 0, 0, 0, 0]).written =
        List.replicate MAX_RETRIES [0x7E, 0x03, 0x03, 0x00, 0x7E] ∧
      (llopen ⟨3, 0, 0⟩ (fun _ => .bytes [0x7E, 0x01, 0x07, 0x06])
        [0, 0, 0, 0, 0]).written.length = MAX_RETRIES :=
  llopen_never_accepted_fails ⟨3, 0, 0⟩ (fun _ => .bytes [0x7E, 0x01, 0x07, 0x06])
    [0, 0, 0, 0, 0] (by decide) (by decide) (by decide)
    (fun _ response => by simp [uaCheck, ReadResult.res])

/-- C1 as stated fails: on the channel whose every read fails, `llopen`
returns -1 after three SET frames, not `MAX_RETRIES + 1` = 4. -/
theorem llopen_silent_channel_three_frames :
    llopen ⟨3, 0, 0⟩ (fun _ => .error) [0, 0, 0, 0, 0] =
        ⟨-1, [[0x7E, 0x03, 0x03, 0x00, 0x7E], [0x7E, 0x03, 0x03, 0x00, 0x7E],
          [0x7E, 0x03, 0x03, 0x00, 0x7E]]⟩ ∧
      (llopen ⟨3, 0, 0⟩ (fun _ => .error) [0, 0, 0, 0, 0]).written.length ≠ MAX_RETRIES + 1 := by
  have h : llopen ⟨3, 0, 0⟩ (fun _ => .error) [0, 0, 0, 0, 0] =
      ⟨-1, [[0x7E, 0x03, 0x03, 0x00, 0x7E], [0x7E, 0x03, 0x03, 0x00, 0x7E],
        [0x7E, 0x03, 0x03, 0x00, 0x7E]]⟩ := by
    rw [llopen_configured _ _ _ (by decide) (by decide) (by decide)]
    exact llopenLoop_three_rejects 3 _ _ (fun _ _ _ => rfl)
  rw [h]
  exact ⟨rfl, by decide⟩

/-- C2 (amended): the reply check of `llopen` accepts 7E 03 07 04 7E (address
`A` = 0x03, control `C_UA` = 0x07, checksum `BCC_UA` = 0x03 XOR 0x07 = 0x04):
when the first read returns exactly these 5 bytes, `llopen` returns the
descriptor after one SET frame.  The frame 7E 01 07 06 7E that the TP2 reader
builds and sends is a different frame and fails the check. -/
theorem llopen_accepts_ua_with_address_A (port : Port) (reads : Nat → ReadResult)
    (response0 : List Nat)
    (hfd : 0 ≤ port.fd) (hget : port.tcgetattr ≠ -1) (hset : port.tcsetattr ≠ -1)
    (h0 : reads 0 = .bytes [0x7E, 0x03, 0x07, 0x04, 0x7E]) :
    llopen port reads response0 = ⟨port.fd, [[0x7E, 0x03, 0x03, 0x00, 0x7E]]⟩ ∧
      TP2Read.buf_answer.take TP2Read.BUF_SIZE = [0x7E, 0x01, 0x07, 0x06, 0x7E] ∧
      uaCheck 5 (TP2Read.buf_answer.take TP2Read.BUF_SIZE) = false := by
  refine ⟨?_, by decide, by decide⟩
  rw [llopen_configured port reads response0 hfd hget hset]
  rw [llopenLoop_accept port.fd reads 0 _ _ (by decide)
    (by rw [h0, uaCheck_five]; decide)]
  rfl

/-- Witness of C2: the first read delivers 7E 03 07 04 7E. -/
theorem llopen_accepts_ua_with_address_A_witness :
    llopen ⟨3, 0, 0⟩ (fun _ => .bytes [0x7E, 0x03, 0x07, 0x04, 0x7E]) [0, 0, 0, 0, 0] =
      ⟨3, [[0x7E, 0x03, 0x03, 0x00, 0x7E]]⟩ :=
  (llopen_accepts_ua_with_address_A ⟨3, 0, 0⟩
    (fun _ => .bytes [0x7E, 0x03, 0x07, 0x04, 0x7E]) [0, 0, 0, 0, 0]
    (by decide) (by decide) (by decide) rfl).1

/-- C2 as stated fails: when the first read (and every later one) returns
7E 01 07 06 7E, the frame the TP2 reader sends, `llopen` does not return the
descriptor 3: it retries and ends with -1. -/
theorem llopen_rejects_receiver_ua :
    TP2Read.buf_answer.take TP2Read.BUF_SIZE = [0x7E, 0x01, 0x07, 0x06, 0x7E] ∧
      llopen ⟨3, 0, 0⟩ (fun _ => .bytes [0x7E, 0x01, 0x07, 0x06, 0x7E]) [0, 0, 0, 0, 0] =
        ⟨-1, [[0x7E, 0x03, 0x03, 0x00, 0x7E], [0x7E, 0x03, 0x03, 0x00, 0x7E],
          [0x7E, 0x03, 0x03, 0x00, 0x7E]]⟩ := by
  refine ⟨by decide, ?_⟩
  rw [llopen_configured _ _ _ (by decide) (by decide) (by decide)]
  exact llopenLoop_three_rejects 3 _ _ (fun _ _ r => by rw [uaCheck_five]; decide)

/-- C3 (amended): in `llopen` a received 5-byte reply that fails the acceptance
check ends the current attempt like any other unsuccessful read: the pass of
the loop body that received it ends with the retry counter incremented, and
`MAX_RETRIES` consecutive such replies make `llopen` return -1, each of the
three passes having written the SET frame. -/
theorem llopen_bad_reply_ends_attempt (port : Port) (reads : Nat → ReadResult)
    (response0 : List Nat) (bad : Nat → List Nat)
    (hfd : 0 ≤ port.fd) (hget : port.tcgetattr ≠ -1) (hset : port.tcsetattr ≠ -1)
    (hlen : ∀ k, (bad k).length = 5)
    (hbad : ∀ k, uaCheck 5 (bad k) = false)
    (hreads : ∀ k, k < MAX_RETRIES → reads k = .bytes (bad k)) :
    (∀ (s : LoopState) (k : Nat),
        llopenBody port.fd s (.bytes (bad k)) =
          .next ⟨s.retries + 1, bad k ++ s.response.drop 5,
            s.written ++ [[0x7E, 0x03, 0x03, 0x00, 0x7E]]⟩) ∧
      llopen port reads response0 =
        ⟨-1, [[0x7E, 0x03, 0x03, 0x00, 0x7E], [0x7E, 0x03, 0x03, 0x00, 0x7E],
          [0x7E, 0x03, 0x03, 0x00, 0x7E]]⟩ := by
  constructor
  · intro s k
    rw [llopenBody_reject port.fd s _
      (by rw [uaCheck_of_length_five _ _ (hlen k)]; exact hbad k),
      store_of_length_five _ _ (hlen k)]
  · rw [llopen_configured port reads response0 hfd hget hset]
    exact llopenLoop_three_rejects port.fd reads response0 (fun k hk r => by
      rw [hreads k hk, uaCheck_of_length_five _ _ (hlen k)]; exact hbad k)

/-- Witness of C3: every read delivers the wrong-checksum reply
7E 01 07 05 7E. -/
theorem llopen_bad_reply_ends_attempt_witness :
    (∀ s : LoopState,
        llopenBody 3 s (.bytes [0x7E, 0x01, 0x07, 0x05, 0x7E]) =
          .next ⟨s.retries + 1, [0x7E, 0x01, 0x07, 0x05, 0x7E] ++ s.response.drop 5,
            s.written ++ [[0x7E, 0x03, 0x03, 0x00, 0x7E]]⟩) ∧
      llopen ⟨3, 0, 0⟩ (fun _ => .bytes [0x7E, 0x01, 0x07, 0x05, 0x7E]) [0, 0, 0, 0, 0] =
        ⟨-1, [[0x7E, 0x03, 0x03, 0x00, 0x7E], [0x7E, 0x03, 0x03, 0x00, 0x7E],
          [0x7E, 0x03, 0x03, 0x00, 0x7E]]⟩ :=
  have h := llopen_bad_reply_ends_attempt ⟨3, 0, 0⟩
    (fun _ => .bytes [0x7E, 0x01, 0x07, 0x05, 0x7E])
    [0, 0, 0, 0, 0] (fun _ => [0x7E, 0x01, 0x07, 0x05, 0x7E])
    (by decide) (by decide) (by decide) (fun _ => rfl)
    (fun _ => (by decide : uaCheck 5 [0x7E, 0x01, 0x07, 0x05, 0x7E] = false)) (fun _ _ => rfl)
  ⟨fun s => h.1 s 0, h.2⟩

/-- C3 as stated fails: the wrong-checksum reply 7E 01 07 05 7E received in the
first pass increments the retry counter from 0 to 1, the second pass writes the
SET frame again, and three such replies in a row make `llopen` fail. -/
theorem llopen_wrong_checksum_reply_counts :
    llopenBody 3 ⟨0, [0, 0, 0, 0, 0], []⟩ (.bytes [0x7E, 0x01, 0x07, 0x05, 0x7E]) =
        .next ⟨1, [0x7E, 0x01, 0x07, 0x05, 0x7E], [[0x7E, 0x03, 0x03, 0x00, 0x7E]]⟩ ∧
      llopenBody 3 ⟨1, [0x7E, 0x01, 0x07, 0x05, 0x7E], [[0x7E, 0x03, 0x03, 0x00, 0x7E]]⟩
          (.bytes [0x7E, 0x01, 0x07, 0x05, 0x7E]) =
        .next ⟨2, [0x7E, 0x01, 0x07, 0x05, 0x7E],
          [[0x7E, 0x03, 0x03, 0x00, 0x7E], [0x7E, 0x03, 0x03, 0x00, 0x7E]]⟩ ∧
      (llopen ⟨3, 0, 0⟩ (fun _ => .bytes [0x7E, 0x01, 0x07, 0x05, 0x7E])
        [0, 0, 0, 0, 0]).ret = -1 := by
  refine ⟨by decide, by decide, ?_⟩
  rw [llopen_configured _ _ _ (by decide) (by decide) (by decide),
    llopenLoop_three_rejects 3 _ _ (fun _ _ r => by rw [uaCheck_five]; decide)]

end LinkLayer

/-! ## Theorems: the TP2 reader -/

namespace TP2Read

theorem runUntilStop_STOP (bytes : List Nat) : runUntilStop .STOP_ bytes = .STOP_ := by
  cases bytes <;> rfl

theorem runUntilStop_cons (s : State) (b : Nat) (rest : List Nat) (hs : s ≠ .STOP_) :
    runUntilStop s (b :: rest) = runUntilStop (switchState s b) rest := by
  cases s <;> first | rfl | exact absurd rfl hs

/-- From every state the SET frame leads into `STOP_`. -/
theorem runUntilStop_frame (s : State) :
    runUntilStop s [0x7E, 0x03, 0x03, 0x00, 0x7E] = .STOP_ := by
  cases s <;> decide

/-- Whatever precedes it, the SET frame leads into `STOP_`. -/
theorem runUntilStop_noise_frame (s : State) (noise : List Nat) :
    runUntilStop s (noise ++ [0x7E, 0x03, 0x03, 0x00, 0x7E]) = .STOP_ := by
  induction noise generalizing s with
  | nil => exact runUntilStop_frame s
  | cons b rest ih =>
    by_cases hs : s = .STOP_
    · rw [hs]; exact runUntilStop_STOP _
    · rw [List.cons_append, runUntilStop_cons s b _ hs]
      exact ih _

/-- When the run that stops at the first `STOP_` ends in `STOP_`, the plain run
is in `STOP_` after some prefix of the bytes. -/
theorem run_take_of_runUntilStop (s : State) (bytes : List Nat)
    (h : runUntilStop s bytes = .STOP_) :
    ∃ k, k ≤ bytes.length ∧ run s (bytes.take k) = .STOP_ := by
  induction bytes generalizing s with
  | nil =>
    refine ⟨0, le_refl _, ?_⟩
    cases s <;> first | rfl | (simp [runUntilStop] at h)
  | cons b rest ih =>
    by_cases hs : s = .STOP_
    · exact ⟨0, Nat.zero_le _, by rw [hs]; rfl⟩
    · rw [runUntilStop_cons s b rest hs] at h
      obtain ⟨k, hk, hrun⟩ := ih _ h
      exact ⟨k + 1, by simpa using hk, by simpa [run] using hrun⟩

/-- C4: for every list of noise bytes, the transition function of the TP2
reader run from `START` over the noise followed by the SET frame
7E 03 03 00 7E, stopping at the first entry into `STOP_`, ends in `STOP_`; so
the machine is in `STOP_` after some prefix of these bytes, no later than the
last byte of the frame. -/
theorem synchronizer_resynchronises (noise : List Nat) :
    runUntilStop .START (noise ++ [0x7E, 0x03, 0x03, 0x00, 0x7E]) = .STOP_ ∧
      ∃ k, k ≤ (noise ++ [0x7E, 0x03, 0x03, 0x00, 0x7E]).length ∧
        run .START ((noise ++ [0x7E, 0x03, 0x03, 0x00, 0x7E]).take k) = .STOP_ :=
  ⟨runUntilStop_noise_frame .START noise,
    run_take_of_runUntilStop .START _ (runUntilStop_noise_frame .START noise)⟩

/-- C5: for every position `i` of the SET frame 7E 03 03 00 7E and every byte
`b` different from the byte at `i`, the five bytes of the frame with position
`i` replaced by `b`, fed from `START`, never bring the machine into `STOP_`:
`STOP_` is none of the states entered, and not the state after the last
byte. -/
theorem single_corruption_never_accepted (i b : Nat) (hi : i < 5)
    (hb : b ≠ [0x7E, 0x03, 0x03, 0x00, 0x7E].getD i 0) :
    State.STOP_ ∉ trace .START ([0x7E, 0x03, 0x03, 0x00, 0x7E].set i b) ∧
      run .START ([0x7E, 0x03, 0x03, 0x00, 0x7E].set i b) ≠ .STOP_ := by
  have key : ∀ c : Nat,
      c = 0x7E ∨ c = 0x03 ∨ c = 0x00 ∨ (c ≠ 0x7E ∧ c ≠ 0x03 ∧ c ≠ 0x00) := by
    intro c; omega
  interval_cases i
  all_goals
    simp only [List.getD_cons_zero, List.getD_cons_succ] at hb
    rcases key b with h | h | h | ⟨h1, h2, h3⟩
    all_goals first
      | (subst h; first | exact absurd rfl hb | decide)
      | (simp [List.set, trace, run, List.foldl, switchState, FLAG, ADRESS_SENDER, SET,
          h1, h2, h3])

/-- Witness of C5: the checksum byte (position 3) replaced by 0x05, the frame
7E 03 03 05 7E. -/
theorem single_corruption_never_accepted_witness :
    State.STOP_ ∉ trace .START ([0x7E, 0x03, 0x03, 0x00, 0x7E].set 3 0x05) ∧
      run .START ([0x7E, 0x03, 0x03, 0x00, 0x7E].set 3 0x05) ≠ .STOP_ :=
  single_corruption_never_accepted 3 0x05 (by decide) (by decide)

/-- C10 (amended): in `A_RCV` every byte different from the expected control
0x03 and from the flag 0x7E moves the machine to `START`, and in `C_RCV` every
byte different from the checksum 0x00 and from the flag 0x7E moves it to
`START`; the flag 0x7E moves either state to `FLAG_RCV`. -/
theorem strict_reset_except_flag (b : Nat) (hflag : b ≠ 0x7E) :
    (b ≠ 0x03 → switchState .A_RCV b = .START) ∧
      (b ≠ 0x00 → switchState .C_RCV b = .START) ∧
      switchState .A_RCV 0x7E = .FLAG_RCV ∧
      switchState .C_RCV 0x7E = .FLAG_RCV := by
  refine ⟨fun h => ?_, fun h => ?_, by decide, by decide⟩
  · simp [switchState, SET, FLAG, h, hflag]
  · simp [switchState, SET, ADRESS_SENDER, FLAG, h, hflag]

/-- Witness of C10: the byte 0x05 in `A_RCV` and in `C_RCV`. -/
theorem strict_reset_except_flag_witness :
    switchState .A_RCV 0x05 = .START ∧ switchState .C_RCV 0x05 = .START :=
  ⟨(strict_reset_except_flag 0x05 (by decide)).1 (by decide),
    (strict_reset_except_flag 0x05 (by decide)).2.1 (by decide)⟩

/-- C10 as stated fails: the byte 0x7E is neither the expected control 0x03 nor
the checksum 0x00, and it moves `A_RCV` and `C_RCV` to `FLAG_RCV`, not to
`START`. -/
theorem flag_in_A_RCV_goes_to_FLAG_RCV :
    (0x7E : Nat) ≠ 0x03 ∧ switchState .A_RCV 0x7E = .FLAG_RCV ∧
      switchState .A_RCV 0x7E ≠ .START ∧
      (0x7E : Nat) ≠ 0x00 ∧ switchState .C_RCV 0x7E = .FLAG_RCV ∧
      switchState .C_RCV 0x7E ≠ .START := by
  decide

end TP2Read

/-! ## Theorems: the writers and the readers together -/

/-- C6: the 5 bytes that the TP2 writer builds and writes first are
7E 03 03 00 7E, with the address 0x03 and the control SET 0x03 that the TP2
reader expects at positions 1 and 2; fed byte by byte from `START` to the
transition function of the TP2 reader they lead through `FLAG_RCV`, `A_RCV`,
`C_RCV` and `BCC_OK` into `STOP_`, entered on the fifth byte and not before. -/
theorem set_frame_round_trip :
    TP2Write.sentFrame = [0x7E, 0x03, 0x03, 0x00, 0x7E] ∧
      TP2Write.sentFrame.getD 1 0 = TP2Read.ADRESS_SENDER ∧
      TP2Write.sentFrame.getD 2 0 = TP2Read.SET ∧
      TP2Read.trace .START TP2Write.sentFrame =
        [.FLAG_RCV, .A_RCV, .C_RCV, .BCC_OK, .STOP_] ∧
      TP2Read.run .START TP2Write.sentFrame = .STOP_ := by
  decide

/-- C7 (amended): the information frame that the TP3 writer builds and writes
first is the 10 bytes 7E 03 00 03 48 65 6C 6C 6F 7E, of the shape FLAG,
ADDRESS, CONTROL, CHECKSUM1, payload, FLAG: its first and last bytes are 0x7E,
byte 3 equals byte 1 XOR byte 2, and the five bytes between CHECKSUM1 and the
closing flag are the payload Hello, with no checksum byte after it. -/
theorem information_frame_shape :
    TP3Write.sentFrame = [0x7E, 0x03, 0x00, 0x03, 0x48, 0x65, 0x6C, 0x6C, 0x6F, 0x7E] ∧
      TP3Write.sentFrame.length = 10 ∧
      TP3Write.sentFrame.getD 0 0 = 0x7E ∧
      TP3Write.sentFrame.getD 9 0 = 0x7E ∧
      TP3Write.sentFrame.getD 3 0 =
        TP3Write.sentFrame.getD 1 0 ^^^ TP3Write.sentFrame.getD 2 0 ∧
      (TP3Write.sentFrame.drop 4).take 5 = [0x48, 0x65, 0x6C, 0x6C, 0x6F] := by
  decide

/-- C7 as stated fails: in the frame of the TP3 writer the byte immediately
before the closing flag is 0x6F, the last letter of the payload, while the XOR
of the bytes between CHECKSUM1 and it (48 65 6C 6C) is 0x2D. -/
theorem information_frame_no_payload_checksum :
    TP3Write.sentFrame.getD 8 0 = 0x6F ∧
      TP3Read.calculate_bcc (TP3Write.sentFrame.drop 4) 4 = 0x2D ∧
      TP3Write.sentFrame.getD 8 0 ≠ TP3Read.calculate_bcc (TP3Write.sentFrame.drop 4) 4 := by
  decide

/-- C8 (the code at every input): the loop condition compares `state` with
the integer `STOP` = 0, which is the value of `START` and not of `STOP_`; so
whatever the channel would deliver, the receive loops of the TP2 and TP3
readers are left at once, in state `START`, and `main` writes the UA frame
7E 01 07 06 7E after no read call and no consumed byte. -/
theorem reader_answers_before_reading (reads2 : List TP2Read.ReadByte)
    (reads3 : List TP3Read.ReadByte) :
    TP2Read.State.START.val = TP2Read.STOP ∧
      TP2Read.State.STOP_.val ≠ TP2Read.STOP ∧
      TP2Read.receiveLoop TP2Read.initGlobals reads2 0 [] =
        ⟨⟨.START, 0⟩, 0, [], true⟩ ∧
      TP2Read.main reads2 = some ⟨[], 0, [[0x7E, 0x01, 0x07, 0x06, 0x7E]]⟩ ∧
      TP3Read.State.START.val = TP3Read.STOP ∧
      TP3Read.State.STOP_.val ≠ TP3Read.STOP ∧
      (TP3Read.receiveLoop TP3Read.initGlobals reads3 0 []).g.state = .START ∧
      TP3Read.main reads3 = some ⟨[], 0, [[0x7E, 0x01, 0x07, 0x06, 0x7E]]⟩ := by
  have h2 : TP2Read.receiveLoop TP2Read.initGlobals reads2 0 [] =
      ⟨⟨.START, 0⟩, 0, [], true⟩ := by
    cases reads2 <;> rfl
  have h3 : TP3Read.receiveLoop TP3Read.initGlobals reads3 0 [] =
      ⟨TP3Read.initGlobals, 0, [], true, false⟩ := by
    cases reads3 <;> rfl
  refine ⟨by decide, by decide, h2, ?_, by decide, by decide, ?_, ?_⟩
  · simp only [TP2Read.main, h2]; decide
  · rw [h3]; rfl
  · simp only [TP3Read.main, h3]; decide

/-- C9 (the code at the failing input): when the first read of a writer
returns the five bytes 7E 01 07 05 7E after the alarm has expired four times,
the retransmit branch is taken and it writes `buf` as the read left it: the TP2
writer sends 7E 01 07 05 7E instead of the SET frame, the TP3 writer sends
7E 01 07 05 7E 65 6C 6C 6F 7E instead of the information frame. -/
theorem retransmission_sends_read_buffer :
    TP2Write.main [⟨4, .bytes [0x7E, 0x01, 0x07, 0x05, 0x7E]⟩] =
        some [[0x7E, 0x03, 0x03, 0x00, 0x7E], [0x7E, 0x01, 0x07, 0x05, 0x7E]] ∧
      TP3Write.main [⟨4, .bytes [0x7E, 0x01, 0x07, 0x05, 0x7E]⟩] =
        some [[0x7E, 0x03, 0x00, 0x03, 0x48, 0x65, 0x6C, 0x6C, 0x6F, 0x7E],
          [0x7E, 0x01, 0x07, 0x05, 0x7E, 0x65, 0x6C, 0x6C, 0x6F, 0x7E]] := by
  decide

/-! ## Theorems: reads that deliver nothing, and the frame buffer -/

namespace TP2Read

/-- While the loop condition holds, the receive loop performs one pass of the
body on the next read result. -/
theorem receiveLoop_iteration (g : Globals) (r : ReadByte) (rest : List ReadByte)
    (calls : Nat) (consumed : List Nat) (hrun : g.state.val ≠ STOP) :
    receiveLoop g (r :: rest) calls consumed =
      match loopIteration g r with
      | none => ⟨⟨g.state, r.store g.byte⟩, calls + 1, consumed, true⟩
      | some g1 => receiveLoop g1 rest (calls + 1) (consumed ++ r.taken) := by
  rw [receiveLoop, if_pos hrun]
  simp only [loopIteration]
  split_ifs <;> rfl

/-- C11 (the code at the failing input): a pass of the receive loop whose read
returns 0 still runs the `switch`, on the byte left by an earlier read.  In
state `A_RCV` with `byte` = 0x03 (the address just received) it moves the
machine to `C_RCV`; and the loop in `FLAG_RCV`, given the address 0x03, a read
that returns 0, then 0x00 and 0x7E, enters `STOP_` although the channel
delivered only 03 00 7E after the flag. -/
theorem empty_read_advances_state :
    ReadByte.res .nothing = 0 ∧
      loopIteration ⟨.A_RCV, 0x03⟩ .nothing = some ⟨.C_RCV, 0x03⟩ ∧
      (some ⟨.C_RCV, 0x03⟩ : Option Globals) ≠ some ⟨.A_RCV, 0x03⟩ ∧
      loopIteration ⟨.FLAG_RCV, 0x7E⟩ (.got 0x03) = some ⟨.A_RCV, 0x03⟩ ∧
      receiveLoop ⟨.FLAG_RCV, 0x7E⟩ [.got 0x03, .nothing, .got 0x00, .got 0x7E] 0 [] =
        ⟨⟨.STOP_, 0x7E⟩, 4, [0x03, 0x00, 0x7E], false⟩ := by
  decide

end TP2Read

namespace TP3Read

theorem feed_append (g : Globals) (xs ys : List Nat) :
    feed g (xs ++ ys) = (feed g xs).bind fun g1 => feed g1 ys := by
  induction xs generalizing g with
  | nil => rfl
  | cons b rest ih =>
    simp only [List.cons_append, feed]
    cases step g b with
    | none => rfl
    | some g1 => exact ih g1

/-- In `FLAG_RCV` a flag byte is stored at `frame_index` and the state is kept,
as long as the index is inside the array. -/
theorem step_flag_in_FLAG_RCV (byte : Nat) (frame : List Nat) (i : Nat) (hi : i < BUF_SIZE) :
    step ⟨.FLAG_RCV, byte, frame, i⟩ 0x7E = some ⟨.FLAG_RCV, 0x7E, frame.set i 0x7E, i + 1⟩ := by
  simp [step, switchState, storeByte, FLAG, ADRESS_SENDER, hi]

/-- In `FLAG_RCV` with the index at `BUF_SIZE`, a flag byte is stored outside
the array. -/
theorem step_flag_overflow (byte : Nat) (frame : List Nat) :
    step ⟨.FLAG_RCV, byte, frame, BUF_SIZE⟩ 0x7E = none := by
  simp [step, switchState, storeByte, FLAG, ADRESS_SENDER]

/-- Repeated flags in `FLAG_RCV` advance the index by one each, up to
`BUF_SIZE`. -/
theorem feed_flags_in_FLAG_RCV (n : Nat) (byte : Nat) (frame : List Nat) (i : Nat)
    (h : i + n ≤ BUF_SIZE) :
    ∃ byte1 frame1, feed ⟨.FLAG_RCV, byte, frame, i⟩ (List.replicate n 0x7E) =
      some ⟨.FLAG_RCV, byte1, frame1, i + n⟩ := by
  induction n generalizing byte frame i with
  | zero => exact ⟨byte, frame, rfl⟩
  | succ n ih =>
    have hi : i < BUF_SIZE := by omega
    obtain ⟨byte1, frame1, h1⟩ := ih 0x7E (frame.set i 0x7E) (i + 1) (by omega)
    refine ⟨byte1, frame1, ?_⟩
    rw [List.replicate_succ, feed, step_flag_in_FLAG_RCV byte frame i hi]
    simp only [h1]
    congr 2
    omega

/-- The first flag received in `START` with an empty frame is stored at index
0 and leads to `FLAG_RCV`. -/
theorem step_first_flag :
    step initGlobals 0x7E =
      some ⟨.FLAG_RCV, 0x7E, (List.replicate BUF_SIZE 0).set 0 0x7E, 1⟩ := by
  have h0 : 0 < BUF_SIZE := by decide
  simp [step, switchState, storeByte, initGlobals, FLAG, h0]

/-- After 256 flags from the initial state the machine is in `FLAG_RCV` with
`frame_index` = 256. -/
theorem feed_256_flags :
    ∃ byte frame, feed initGlobals (List.replicate 256 0x7E) =
      some ⟨.FLAG_RCV, byte, frame, 256⟩ := by
  obtain ⟨byte1, frame1, h1⟩ :=
    feed_flags_in_FLAG_RCV 255 0x7E ((List.replicate BUF_SIZE 0).set 0 0x7E) 1 (by decide)
  refine ⟨byte1, frame1, ?_⟩
  rw [List.replicate_succ, feed, step_first_flag]
  exact h1

/-- C12 (the code at the failing input): from `START` with `frame_index` = 0,
256 flag bytes 0x7E leave the machine in `FLAG_RCV` with `frame_index` = 256,
each having been stored by `frame[frame_index++] = byte`; the 257th flag is
then stored at index 256, outside `frame[0..255]`. -/
theorem repeated_flags_overflow_frame :
    initGlobals.state = .START ∧ initGlobals.frame_index = 0 ∧
      (∃ byte frame, feed initGlobals (List.replicate 256 0x7E) =
        some ⟨.FLAG_RCV, byte, frame, 256⟩) ∧
      (∀ byte frame, storeByte ⟨.FLAG_RCV, byte, frame, 256⟩ = none) ∧
      feed initGlobals (List.replicate 257 0x7E) = none := by
  refine ⟨rfl, rfl, feed_256_flags, fun byte frame => by simp [storeByte, BUF_SIZE], ?_⟩
  obtain ⟨byte, frame, h⟩ := feed_256_flags
  have hsplit : List.replicate 257 (0x7E : Nat) = List.replicate 256 0x7E ++ [0x7E] :=
    List.replicate_succ' ..
  rw [hsplit, feed_append, h]
  simp only [Option.bind, feed]
  rw [show (256 : Nat) = BUF_SIZE from rfl, step_flag_overflow]

end TP3Read
